import Mathlib

/-!
Verification of the CaloTrack metabolic-profile / daily-ledger frontend.

The definitions below are a shallow embedding of the TypeScript sources:
  - src/frontend/src/lib/exerciseDatabase.ts (MET table, calorie preview, grouping)
  - src/frontend/src/pages/DashboardPage.tsx (preview wiring, food quantity handling)
  - src/frontend/src/pages/ProfilePage.tsx (measurement clearing, history rendering)
JavaScript numbers are embedded as rationals (`Rat`), `Math.round` as
round-half-up on rationals, and fallible lookups as `Option`.
Backend components that are not part of the source tree (the Daily Ledger
Manager, History Reader, Metabolic and Body Composition Calculators) are
modelled from the specification text; each such definition carries a
doc comment saying so.
-/

namespace CaloTrack

/-- JavaScript Math.round: rounds to the nearest integer, halves toward
positive infinity, i.e. the floor of x + 1/2. -/
def jsRound (x : Rat) : Int :=
  ⌊x + 1/2⌋

/-- One row of the static exercise table (exerciseDatabase.ts, ExerciseItem). -/
structure ExerciseItem where
  type : String
  label : String
  met : Rat
  category : String
deriving DecidableEq, Repr

/-- The static MET table EXERCISE_LIST from exerciseDatabase.ts, verbatim. -/
def EXERCISE_LIST : List ExerciseItem := [
  ⟨"walking_slow", "Walking (slow)", 28/10, "Walking"⟩,
  ⟨"walking", "Walking", 35/10, "Walking"⟩,
  ⟨"walking_fast", "Walking (brisk)", 43/10, "Walking"⟩,
  ⟨"hiking", "Hiking", 6, "Walking"⟩,
  ⟨"jogging", "Jogging", 7, "Running"⟩,
  ⟨"running", "Running", 98/10, "Running"⟩,
  ⟨"running_fast", "Running (fast)", 115/10, "Running"⟩,
  ⟨"cycling_light", "Cycling (leisurely)", 4, "Cycling"⟩,
  ⟨"cycling", "Cycling", 68/10, "Cycling"⟩,
  ⟨"cycling_vigorous", "Cycling (vigorous)", 10, "Cycling"⟩,
  ⟨"swimming", "Swimming", 6, "Swimming"⟩,
  ⟨"swimming_vigorous", "Swimming (vigorous)", 98/10, "Swimming"⟩,
  ⟨"weight_training", "Weight training", 35/10, "Gym"⟩,
  ⟨"weight_training_vigorous", "Weight training (intense)", 6, "Gym"⟩,
  ⟨"hiit", "HIIT", 8, "Gym"⟩,
  ⟨"elliptical", "Elliptical", 5, "Gym"⟩,
  ⟨"rowing_machine", "Rowing machine", 7, "Gym"⟩,
  ⟨"stair_climbing", "Stair climbing", 88/10, "Gym"⟩,
  ⟨"jump_rope", "Jump rope", 10, "Gym"⟩,
  ⟨"yoga", "Yoga", 25/10, "Mind & Body"⟩,
  ⟨"pilates", "Pilates", 3, "Mind & Body"⟩,
  ⟨"stretching", "Stretching", 23/10, "Mind & Body"⟩,
  ⟨"basketball", "Basketball", 65/10, "Sports"⟩,
  ⟨"soccer", "Soccer / Football", 7, "Sports"⟩,
  ⟨"tennis", "Tennis", 73/10, "Sports"⟩,
  ⟨"dancing", "Dancing", 48/10, "Sports"⟩,
  ⟨"other", "Other activity", 4, "Other"⟩]

/-- The table lookup EXERCISE_LIST.find((e) => e.type === exerciseType). -/
def findExercise (exerciseType : String) : Option ExerciseItem :=
  EXERCISE_LIST.find? (fun e => e.type == exerciseType)

/-- The MET actually used by the preview: the table value, or 4.0 when the
type is not in the table (the ex?.met ?? 4.0 fallback). -/
def metOf (exerciseType : String) : Rat :=
  ((findExercise exerciseType).map ExerciseItem.met).getD 4

/-- previewCaloriesBurned from exerciseDatabase.ts:
Math.round(met * weightKg * (durationMin / 60)). -/
def previewCaloriesBurned (exerciseType : String) (durationMin weightKg : Rat) : Int :=
  jsRound (metOf exerciseType * weightKg * (durationMin / 60))

/-- The grouping step of the reduce in groupedExercises (exerciseDatabase.ts):
acc[ex.category] gets ex pushed onto it, a fresh key being appended at the
end of the object's key order, exactly as a JS object records first-insertion
order of string keys. The object is embedded as an association list. -/
def addToGroup : List (String × List ExerciseItem) → ExerciseItem → List (String × List ExerciseItem)
  | [], ex => [(ex.category, [ex])]
  | (k, l) :: rest, ex =>
    if k == ex.category then (k, l ++ [ex]) :: rest else (k, l) :: addToGroup rest ex

/-- groupedExercises from exerciseDatabase.ts: EXERCISE_LIST.reduce over an
initially empty record. -/
def groupedExercises : List (String × List ExerciseItem) :=
  EXERCISE_LIST.foldl addToGroup []

/-- Modelled from the spec: the backend Daily Ledger Manager's addExercise
(section 4.3) is not part of the source tree; per the spec it computes
calories_burned = met x weight_kg x (duration_minutes/60), rounded to the
nearest integer, using the shared Exercise Energy Model MET table with the
default fallback for unknown types (sections 4.5 and 9 require a single
shared table and formula for preview and recording). -/
def addExercise_caloriesBurned (exerciseType : String) (durationMin weightKg : Rat) : Int :=
  jsRound (metOf exerciseType * weightKg * (durationMin / 60))

/-- The slice of the profile the dashboard reads (DashboardPage.tsx,
interface Profile). -/
structure DashProfile where
  weight : Rat
  daily_target : Rat
deriving DecidableEq

/-- DashboardPage.tsx line 138: const weightKg = profile?.weight ?? 70 —
the body weight used for the burn preview, defaulting to 70 when the
profile query has not resolved. -/
def dashboardWeightKg : Option DashProfile → Rat
  | some p => p.weight
  | none => 70

/-- DashboardPage.tsx line 139: the burn preview shown in the exercise form,
previewCaloriesBurned(exType, duration, weightKg). -/
def dashboardBurnPreview (profile : Option DashProfile) (exType : String) (exDuration : Rat) : Int :=
  previewCaloriesBurned exType exDuration (dashboardWeightKg profile)

/-- DashboardPage.tsx handleQuantityChange: parseFloat the entered quantity
(None embeds an unparsable input, i.e. NaN); when a catalog item is selected
(baseCalories > 0) and the quantity is positive, the calorie field becomes
Math.round(baseCalories * qty); otherwise the field is left as it was.
The field's value is what addFood.mutate later submits as calories. -/
def handleQuantityChange (baseCalories foodCal : Rat) (q : Option Rat) : Rat :=
  match q with
  | some qty => if baseCalories > 0 ∧ qty > 0 then (jsRound (baseCalories * qty) : Rat) else foodCal
  | none => foodCal

inductive Gender where
  | male
  | female
deriving DecidableEq

/-- The optional circumference measurements of a Profile (waist/neck/hip). -/
structure BodyMeasurements where
  waist_cm : Option Rat
  neck_cm : Option Rat
  hip_cm : Option Rat
deriving DecidableEq

/-- Modelled from the spec: the Body Composition Calculator (section 4.2) is
not part of the source tree. Body fat is computable exactly when waist_cm and
neck_cm are present, and hip_cm as well for a female profile (sections 3
and 4.2). -/
def measurementsPresent (g : Gender) (m : BodyMeasurements) : Bool :=
  m.waist_cm.isSome && m.neck_cm.isSome && (!(g == Gender.female) || m.hip_cm.isSome)

/-- The five derived body-composition fields of a Profile. -/
structure BodyComp where
  body_fat_pct : Option Rat
  lbm : Option Rat
  ffmi : Option Rat
  protein_min : Option Rat
  protein_max : Option Rat
deriving DecidableEq

/-- Modelled from the spec: the backend recompute of the derived
body-composition cluster (section 4.2). The Navy body-fat formula uses
log10 with gender-specific coefficients; its numeric value is irrelevant to
the presence claims, so it is abstracted as the parameter navy. lbm, ffmi
and the protein range are derived from the body-fat value per the spec's
formulas (ffmi's height-normalization correction uses the conventional
6.1 x (1.8 - height_m) term, which the spec leaves unnamed). -/
def computeBodyComp (navy : Gender → Rat → Rat → Rat → Rat) (g : Gender)
    (height_cm weight_kg : Rat) (m : BodyMeasurements) : BodyComp :=
  let bf : Option Rat :=
    if measurementsPresent g m then
      some (navy g (m.waist_cm.getD 0) (m.neck_cm.getD 0) (m.hip_cm.getD 0))
    else none
  let lb := bf.map (fun b => weight_kg * (1 - b / 100))
  let hm := height_cm / 100
  { body_fat_pct := bf
    lbm := lb
    ffmi := lb.map (fun l => l / (hm * hm) + 61/10 * (18/10 - hm))
    protein_min := lb.map (fun l => l * 8/5)
    protein_max := lb.map (fun l => l * 11/5) }

/-- Modelled from the spec: PATCH /profile semantics on the measurement
fields (section 6): an absent field (outer none) is kept, an explicit null
(some none) clears, a value (some (some v)) sets. -/
def patchMeasurements (m : BodyMeasurements)
    (waist neck hip : Option (Option Rat)) : BodyMeasurements :=
  { waist_cm := waist.getD m.waist_cm
    neck_cm := neck.getD m.neck_cm
    hip_cm := hip.getD m.hip_cm }

/-- ProfilePage.tsx clearMeasurements: api.patch with waist_cm, neck_cm and
hip_cm all explicitly null. -/
def clearMeasurements (m : BodyMeasurements) : BodyMeasurements :=
  patchMeasurements m (some none) (some none) (some none)

/-- All five derived body-composition fields are populated. -/
def clusterAllSome (c : BodyComp) : Prop :=
  c.body_fat_pct.isSome ∧ c.lbm.isSome ∧ c.ffmi.isSome ∧ c.protein_min.isSome ∧ c.protein_max.isSome

/-- All five derived body-composition fields are null. -/
def clusterAllNone (c : BodyComp) : Prop :=
  c.body_fat_pct = none ∧ c.lbm = none ∧ c.ffmi = none ∧ c.protein_min = none ∧ c.protein_max = none

inductive LedgerStatus where
  | deficit
  | maintenance
  | surplus
deriving DecidableEq

/-- A persisted DailyLog summary as the history endpoint returns it
(ProfilePage.tsx, interface DailySummary). Dates are day ordinals: the
ISO yyyy-mm-dd strings of the source order lexicographically exactly as
their day numbers order. -/
structure DailySummary where
  date : Nat
  total_consumed : Rat
  total_burned : Rat
  net_calories : Rat
  status : LedgerStatus
deriving DecidableEq

/-- Newest-first comparison on summaries: a precedes b when b's date is at
most a's date. -/
def dateGE (a b : DailySummary) : Prop := b.date ≤ a.date

instance : DecidableRel dateGE :=
  fun a b => inferInstanceAs (Decidable (b.date ≤ a.date))

instance : IsTotal DailySummary dateGE :=
  ⟨fun a b => (Nat.le_total a.date b.date).symm⟩

instance : IsTrans DailySummary dateGE :=
  ⟨fun _ _ _ hab hbc => Nat.le_trans hbc hab⟩

/-- Modelled from the spec: the backend History Reader list() (section 4.4)
is not part of the source tree; per the spec it returns the user's persisted
DailyLog summaries ordered by date descending, a pure projection with no
recomputation. The store argument is the user's set of persisted ledgers in
arbitrary storage order. -/
def historyList (store : List DailySummary) : List DailySummary :=
  List.insertionSort dateGE store

/-- A concrete persisted store used to witness the history theorem. -/
def demoHistoryStore : List DailySummary :=
  [⟨5, 1800, 200, 1600, LedgerStatus.deficit⟩,
   ⟨9, 2500, 0, 2500, LedgerStatus.surplus⟩,
   ⟨2, 2000, 100, 1900, LedgerStatus.maintenance⟩]

inductive ActivityLevel where
  | sedentary
  | light
  | moderate
  | active
deriving DecidableEq

inductive Goal where
  | lose
  | maintain
  | gain
deriving DecidableEq

/-- The raw attributes submitted by onboarding (POST /profile). -/
structure ProfileCreate where
  height : Rat
  weight : Rat
  age : Rat
  gender : Gender
  activity_level : ActivityLevel
  goal : Goal
deriving DecidableEq

/-- The error taxonomy of the spec (section 7). -/
inductive ApiError where
  | ValidationError (field : String)
  | ProfileMissing
  | Conflict
  | NotFound
deriving DecidableEq

/-- Modelled from the spec: TDEE activity multipliers (section 4.1),
sedentary=1.2, light=1.375, moderate=1.55, active=1.725. -/
def activityMultiplier : ActivityLevel → Rat
  | ActivityLevel.sedentary => 12/10
  | ActivityLevel.light => 1375/1000
  | ActivityLevel.moderate => 155/100
  | ActivityLevel.active => 1725/1000

/-- Modelled from the spec: Mifflin-St Jeor BMR (section 4.1). -/
def bmr (p : ProfileCreate) : Rat :=
  10 * p.weight + 25/4 * p.height - 5 * p.age + (if p.gender = Gender.male then 5 else -161)

/-- Modelled from the spec: TDEE = BMR x activity multiplier (section 4.1). -/
def tdee (p : ProfileCreate) : Rat :=
  bmr p * activityMultiplier p.activity_level

/-- Modelled from the spec: the minimum-calories floor (section 4.1),
1500 for male and 1200 for female. -/
def minCalories : Gender → Rat
  | Gender.male => 1500
  | Gender.female => 1200

/-- Modelled from the spec: daily target by goal, clamped upward to the
minimum-calories floor (section 4.1). -/
def dailyTarget (p : ProfileCreate) : Rat :=
  let raw :=
    match p.goal with
    | Goal.lose => tdee p - 500
    | Goal.maintain => tdee p
    | Goal.gain => tdee p + 500
  max raw (minCalories p.gender)

/-- The Metabolic Calculator's output record (section 4.1). -/
structure MetabolicOut where
  bmr : Rat
  tdee : Rat
  daily_target : Rat
  min_calories : Rat
deriving DecidableEq

/-- The derived metabolic fields computed from valid raw attributes. -/
def computeMetabolic (p : ProfileCreate) : MetabolicOut :=
  ⟨bmr p, tdee p, dailyTarget p, minCalories p.gender⟩

/-- Modelled from the spec: backend profile creation (sections 4.1 and 6) is
not part of the source tree; it validates each raw attribute against the sane
physiological range (height 50-300 cm, weight 20-500 kg, age 10-120 yr,
matching the onboarding form's min/max bounds) and fails with a
ValidationError naming the offending field, otherwise returns the computed
metabolic profile. -/
def createProfile (p : ProfileCreate) : Except ApiError MetabolicOut :=
  if p.height < 50 ∨ 300 < p.height then Except.error (ApiError.ValidationError "height")
  else if p.weight < 20 ∨ 500 < p.weight then Except.error (ApiError.ValidationError "weight")
  else if p.age < 10 ∨ 120 < p.age then Except.error (ApiError.ValidationError "age")
  else Except.ok (computeMetabolic p)

/-! Theorems. The embedding is a total function for every operation, so
purity (the result depending only on the arguments) is intrinsic to each
definition above. -/

/-- C1: for every exercise type key the static table assigns a MET value to,
every duration and every body weight, previewCaloriesBurned equals
round(met x weight x duration / 60), with JavaScript Math.round rounding. -/
theorem previewCaloriesBurned_eq_round_met (t : String) (d w : Rat) (ex : ExerciseItem)
    (h : findExercise t = some ex) :
    previewCaloriesBurned t d w = jsRound (ex.met * w * d / 60) := by
  unfold previewCaloriesBurned metOf
  rw [h]
  simp only [Option.map_some', Option.getD_some]
  exact congrArg jsRound (by ring)

/-- Witness for C1 at walking, 30 minutes, 70 kg: the table row for walking
carries MET 3.5 and the preview is round(3.5 x 70 x 30 / 60) = 123. -/
theorem previewCaloriesBurned_eq_round_met_witness :
    previewCaloriesBurned "walking" 30 70 = jsRound ((35/10 : Rat) * 70 * 30 / 60) ∧
    previewCaloriesBurned "walking" 30 70 = 123 :=
  ⟨previewCaloriesBurned_eq_round_met "walking" 30 70 ⟨"walking", "Walking", 35/10, "Walking"⟩
      (by simp [findExercise, EXERCISE_LIST, List.find?]),
   by simp [previewCaloriesBurned, metOf, findExercise, EXERCISE_LIST, List.find?, jsRound]
      norm_num⟩

/-- C2: the client-side preview and the (spec-modelled) calories_burned that
addExercise persists agree on every (type, duration, weight) triple - the
same formula with identical rounding. -/
theorem preview_matches_addExercise (t : String) (d w : Rat) :
    previewCaloriesBurned t d w = addExercise_caloriesBurned t d w := rfl

/-- C3: an exercise type key absent from the MET table does not make the
estimate fail; it falls back to MET 4.0 and returns
round(4 x weight x duration / 60). -/
theorem preview_unknown_type_fallback (t : String) (d w : Rat)
    (h : findExercise t = none) :
    previewCaloriesBurned t d w = jsRound (4 * w * d / 60) := by
  unfold previewCaloriesBurned metOf
  rw [h]
  simp only [Option.map_none', Option.getD_none]
  exact congrArg jsRound (by ring)

/-- Witness for C3: the key zzz is not in the table and the preview for
30 minutes at 70 kg is the MET-4 fallback value. -/
theorem preview_unknown_type_fallback_witness :
    previewCaloriesBurned "zzz" 30 70 = jsRound (4 * 70 * 30 / 60) :=
  preview_unknown_type_fallback "zzz" 30 70
    (by simp [findExercise, EXERCISE_LIST, List.find?])

/-- C4: the static MET table maps each type key to exactly one MET value
(type keys are pairwise distinct) and assigns walking=3.5, running=9.8,
cycling=6.8, swimming=6.0, yoga=2.5, hiit=8.0 and other=4.0. -/
theorem met_table_values :
    (EXERCISE_LIST.map ExerciseItem.type).Nodup ∧
    (findExercise "walking").map ExerciseItem.met = some (35/10) ∧
    (findExercise "running").map ExerciseItem.met = some (98/10) ∧
    (findExercise "cycling").map ExerciseItem.met = some (68/10) ∧
    (findExercise "swimming").map ExerciseItem.met = some 6 ∧
    (findExercise "yoga").map ExerciseItem.met = some (25/10) ∧
    (findExercise "hiit").map ExerciseItem.met = some 8 ∧
    (findExercise "other").map ExerciseItem.met = some 4 := by
  refine ⟨by decide, ?_, ?_, ?_, ?_, ?_, ?_, ?_⟩ <;>
    simp [findExercise, EXERCISE_LIST, List.find?]

/-- C5 counterexample: on a male profile with all three measurements
recorded, a PATCH clearing only hip_cm does not null the derived cluster -
body fat stays populated, because hip is not a required measurement for a
male profile. This refutes the claim that clearing any one of
waist/neck/hip nulls all five derived fields. -/
theorem clear_hip_male_keeps_cluster :
    (computeBodyComp (fun _ _ _ _ => 20) Gender.male 180 80
        (patchMeasurements ⟨some 85, some 38, some 95⟩ none none (some none))).body_fat_pct
      = some 20 := by
  simp [computeBodyComp, patchMeasurements, measurementsPresent]

/-- C5 amended: in every recomputed profile the five derived
body-composition fields are null or populated as one group; a PATCH that
clears waist_cm nulls all five, a PATCH that clears neck_cm nulls all five,
a PATCH that clears hip_cm nulls all five for a female profile (hip is not
required for male), and the frontend's clear-measurements action (all three
nulled at once) nulls all five for either gender. Stated for every Navy
body-fat function, gender, height, weight and starting measurements. -/
theorem bodyComp_cluster_group (navy : Gender → Rat → Rat → Rat → Rat) (g : Gender)
    (hcm wkg : Rat) (m : BodyMeasurements) :
    (clusterAllSome (computeBodyComp navy g hcm wkg m) ∨
      clusterAllNone (computeBodyComp navy g hcm wkg m)) ∧
    clusterAllNone (computeBodyComp navy g hcm wkg (patchMeasurements m (some none) none none)) ∧
    clusterAllNone (computeBodyComp navy g hcm wkg (patchMeasurements m none (some none) none)) ∧
    (g = Gender.female →
      clusterAllNone (computeBodyComp navy g hcm wkg (patchMeasurements m none none (some none)))) ∧
    clusterAllNone (computeBodyComp navy g hcm wkg (clearMeasurements m)) := by
  refine ⟨?_, ?_, ?_, ?_, ?_⟩
  · by_cases h : measurementsPresent g m
    · exact Or.inl (by simp [computeBodyComp, h, clusterAllSome])
    · exact Or.inr (by simp [computeBodyComp, h, clusterAllNone])
  · simp [computeBodyComp, patchMeasurements, measurementsPresent, clusterAllNone]
  · simp [computeBodyComp, patchMeasurements, measurementsPresent, clusterAllNone]
  · intro hg
    subst hg
    simp [computeBodyComp, patchMeasurements, measurementsPresent, clusterAllNone]
  · simp [computeBodyComp, clearMeasurements, patchMeasurements, measurementsPresent,
      clusterAllNone]

/-- Witness for C5 amended, on a female profile with all measurements
present: clearing hip_cm alone nulls the whole derived cluster. -/
theorem bodyComp_cluster_group_witness :
    clusterAllNone (computeBodyComp (fun _ _ _ _ => 20) Gender.female 165 60
      (patchMeasurements ⟨some 80, some 33, some 100⟩ none none (some none))) :=
  (bodyComp_cluster_group (fun _ _ _ _ => 20) Gender.female 165 60
    ⟨some 80, some 33, some 100⟩).2.2.2.1 rfl

/-- C6: the history listing is the persisted DailyLog summaries of the user,
ordered by date strictly descending (hence with no duplicate dates) whenever
the store itself has no duplicate dates (the at-most-one-DailyLog-per-date
invariant); the output is a permutation of the store, i.e. a pure projection
of the persisted summaries with nothing recomputed. -/
theorem historyList_sorted_desc (store : List DailySummary)
    (h : (store.map DailySummary.date).Nodup) :
    (historyList store).Pairwise (fun a b => b.date < a.date) ∧
    (historyList store).Perm store := by
  have hperm : (historyList store).Perm store := List.perm_insertionSort dateGE store
  refine ⟨?_, hperm⟩
  have hsorted : List.Sorted dateGE (historyList store) :=
    List.sorted_insertionSort dateGE store
  have hnd : ((historyList store).map DailySummary.date).Nodup :=
    ((hperm.map DailySummary.date).nodup_iff).mpr h
  have hpw : (historyList store).Pairwise (fun a b => a.date ≠ b.date) :=
    List.pairwise_map.mp hnd
  exact (hsorted.and hpw).imp fun hab => lt_of_le_of_ne hab.1 fun e => hab.2 e.symm

/-- Witness for C6 on the concrete three-day store: dates come back
strictly newest-first and the entries are exactly the stored ones. -/
theorem historyList_sorted_desc_witness :
    (historyList demoHistoryStore).Pairwise (fun a b => b.date < a.date) ∧
    (historyList demoHistoryStore).Perm demoHistoryStore :=
  historyList_sorted_desc demoHistoryStore (by decide)

/-- C7: profile creation succeeds, returning the computed metabolic profile
as a pure total function, exactly when height is within 50-300 cm, weight
within 20-500 kg and age within 10-120 yr; outside those ranges it fails
with a ValidationError naming the offending field. -/
theorem createProfile_validation (p : ProfileCreate) :
    (50 ≤ p.height ∧ p.height ≤ 300 ∧ 20 ≤ p.weight ∧ p.weight ≤ 500 ∧
        10 ≤ p.age ∧ p.age ≤ 120 →
      createProfile p = Except.ok (computeMetabolic p)) ∧
    (¬(50 ≤ p.height ∧ p.height ≤ 300 ∧ 20 ≤ p.weight ∧ p.weight ≤ 500 ∧
        10 ≤ p.age ∧ p.age ≤ 120) →
      ∃ f, createProfile p = Except.error (ApiError.ValidationError f)) := by
  unfold createProfile
  split_ifs with h1 h2 h3
  · exact ⟨fun hv => absurd h1 (by push_neg; exact ⟨hv.1, hv.2.1⟩),
      fun _ => ⟨"height", rfl⟩⟩
  · exact ⟨fun hv => absurd h2 (by push_neg; exact ⟨hv.2.2.1, hv.2.2.2.1⟩),
      fun _ => ⟨"weight", rfl⟩⟩
  · exact ⟨fun hv => absurd h3 (by push_neg; exact ⟨hv.2.2.2.2.1, hv.2.2.2.2.2⟩),
      fun _ => ⟨"age", rfl⟩⟩
  · push_neg at h1 h2 h3
    exact ⟨fun _ => rfl,
      fun hn => absurd ⟨h1.1, h1.2, h2.1, h2.2, h3.1, h3.2⟩ hn⟩

/-- Witness for C7: a 175 cm, 70 kg, 25 yr male profile is accepted with its
computed metabolic output, and a 40 cm height is rejected with a
ValidationError. -/
theorem createProfile_validation_witness :
    createProfile ⟨175, 70, 25, Gender.male, ActivityLevel.moderate, Goal.maintain⟩
        = Except.ok (computeMetabolic
            ⟨175, 70, 25, Gender.male, ActivityLevel.moderate, Goal.maintain⟩) ∧
    ∃ f, createProfile ⟨40, 70, 25, Gender.male, ActivityLevel.moderate, Goal.maintain⟩
        = Except.error (ApiError.ValidationError f) :=
  ⟨(createProfile_validation _).1 (by norm_num),
   (createProfile_validation _).2 (by norm_num)⟩

/-- C8: while the profile query has not resolved, the dashboard's burn
preview substitutes a 70 kg body weight - for every type and duration it
shows round(met x 70 x duration / 60) instead of failing - and this can
differ from the value computed with the real profile weight (here 80 kg,
on running for 60 minutes). -/
theorem dashboard_preview_default70 :
    (∀ (t : String) (d : Rat),
      dashboardBurnPreview none t d = jsRound (metOf t * 70 * d / 60)) ∧
    dashboardBurnPreview none "running" 60 ≠
      dashboardBurnPreview (some ⟨80, 2000⟩) "running" 60 := by
  constructor
  · intro t d
    simp only [dashboardBurnPreview, previewCaloriesBurned, dashboardWeightKg]
    exact congrArg jsRound (by ring)
  · simp [dashboardBurnPreview, previewCaloriesBurned, dashboardWeightKg, metOf,
      findExercise, EXERCISE_LIST, List.find?, jsRound]
    norm_num

/-- C9: with a catalog food item selected (base calories positive), a
positive entered quantity q sets the submitted calorie value to
round(base x q); a non-positive or unparsable quantity leaves the submitted
calorie value unchanged. -/
theorem handleQuantityChange_behavior (b c q : Rat) (hb : 0 < b) :
    (0 < q → handleQuantityChange b c (some q) = (jsRound (b * q) : Rat)) ∧
    (q ≤ 0 → handleQuantityChange b c (some q) = c) ∧
    handleQuantityChange b c none = c := by
  refine ⟨?_, ?_, rfl⟩
  · intro hq
    simp [handleQuantityChange, hb, hq]
  · intro hq
    have hnot : ¬(b > 0 ∧ q > 0) := fun hh => absurd hh.2 (not_lt.mpr hq)
    simp [handleQuantityChange, hnot]

/-- Witness for C9 at base 100 kcal: quantity 2.5 submits round(250) = 250,
quantity 0 and an unparsable quantity leave the field at 55. -/
theorem handleQuantityChange_behavior_witness :
    handleQuantityChange 100 55 (some (5/2)) = (jsRound (100 * (5/2)) : Rat) ∧
    handleQuantityChange 100 55 (some 0) = 55 ∧
    handleQuantityChange 100 55 none = 55 :=
  ⟨(handleQuantityChange_behavior 100 55 (5/2) (by norm_num)).1 (by norm_num),
   (handleQuantityChange_behavior 100 55 0 (by norm_num)).2.1 (by norm_num),
   (handleQuantityChange_behavior 100 55 0 (by norm_num)).2.2⟩

/-- C10: groupedExercises partitions EXERCISE_LIST - the group keys are
pairwise distinct, every group equals the order-preserving filter of
EXERCISE_LIST by its own key (so relative order is preserved), no group is
empty, every item has a group keyed by its category, and an item belongs to
a group exactly when that group's key is the item's own category. -/
theorem groupedExercises_partition :
    (groupedExercises.map Prod.fst).Nodup ∧
    (∀ g ∈ groupedExercises, g.2 = EXERCISE_LIST.filter (fun e => e.category == g.1)) ∧
    (∀ g ∈ groupedExercises, g.2 ≠ []) ∧
    (∀ e ∈ EXERCISE_LIST, ∃ g ∈ groupedExercises, g.1 = e.category) ∧
    (∀ e ∈ EXERCISE_LIST, ∀ g ∈ groupedExercises, (e ∈ g.2 ↔ g.1 = e.category)) := by
  have hexp : groupedExercises = [
      ("Walking", [⟨"walking_slow", "Walking (slow)", 28/10, "Walking"⟩,
        ⟨"walking", "Walking", 35/10, "Walking"⟩,
        ⟨"walking_fast", "Walking (brisk)", 43/10, "Walking"⟩,
        ⟨"hiking", "Hiking", 6, "Walking"⟩]),
      ("Running", [⟨"jogging", "Jogging", 7, "Running"⟩,
        ⟨"running", "Running", 98/10, "Running"⟩,
        ⟨"running_fast", "Running (fast)", 115/10, "Running"⟩]),
      ("Cycling", [⟨"cycling_light", "Cycling (leisurely)", 4, "Cycling"⟩,
        ⟨"cycling", "Cycling", 68/10, "Cycling"⟩,
        ⟨"cycling_vigorous", "Cycling (vigorous)", 10, "Cycling"⟩]),
      ("Swimming", [⟨"swimming", "Swimming", 6, "Swimming"⟩,
        ⟨"swimming_vigorous", "Swimming (vigorous)", 98/10, "Swimming"⟩]),
      ("Gym", [⟨"weight_training", "Weight training", 35/10, "Gym"⟩,
        ⟨"weight_training_vigorous", "Weight training (intense)", 6, "Gym"⟩,
        ⟨"hiit", "HIIT", 8, "Gym"⟩,
        ⟨"elliptical", "Elliptical", 5, "Gym"⟩,
        ⟨"rowing_machine", "Rowing machine", 7, "Gym"⟩,
        ⟨"stair_climbing", "Stair climbing", 88/10, "Gym"⟩,
        ⟨"jump_rope", "Jump rope", 10, "Gym"⟩]),
      ("Mind & Body", [⟨"yoga", "Yoga", 25/10, "Mind & Body"⟩,
        ⟨"pilates", "Pilates", 3, "Mind & Body"⟩,
        ⟨"stretching", "Stretching", 23/10, "Mind & Body"⟩]),
      ("Sports", [⟨"basketball", "Basketball", 65/10, "Sports"⟩,
        ⟨"soccer", "Soccer / Football", 7, "Sports"⟩,
        ⟨"tennis", "Tennis", 73/10, "Sports"⟩,
        ⟨"dancing", "Dancing", 48/10, "Sports"⟩]),
      ("Other", [⟨"other", "Other activity", 4, "Other"⟩])] := rfl
  have hfil : ∀ g ∈ groupedExercises,
      g.2 = EXERCISE_LIST.filter (fun e => e.category == g.1) := by
    intro g hg
    rw [hexp] at hg
    simp only [List.mem_cons, List.not_mem_nil, or_false] at hg
    rcases hg with rfl | rfl | rfl | rfl | rfl | rfl | rfl | rfl <;> rfl
  refine ⟨by decide, hfil, by decide, by decide, ?_⟩
  intro e he g hg
  rw [hfil g hg, List.mem_filter]
  constructor
  · intro h
    exact (beq_iff_eq.mp h.2).symm
  · intro h
    exact ⟨he, beq_iff_eq.mpr h.symm⟩

/-- Witness for C10: the first table item, walking_slow, has a group keyed
by its own category. -/
theorem groupedExercises_partition_witness :
    ∃ g ∈ groupedExercises,
      g.1 = (ExerciseItem.mk "walking_slow" "Walking (slow)" (28/10) "Walking").category :=
  groupedExercises_partition.2.2.2.1 _ (List.mem_cons_self _ _)

end CaloTrack
